import Mathlib

/-!
Shallow embedding of `src/forex_python/converter.py`.

The module is a thin HTTP client: `CurrencyRates` (methods `get_rates`,
`get_rate`, `convert`) builds one request per call, hands it to the
transport (`safe_requests.get`), decodes the JSON `rates` field and either
returns a value or raises `RatesNotAvailableError` /
`DecimalFloatMismatchError`; `CurrencyCodes` answers point lookups in a
static table of currency records.

Modelling choices:
* Python numbers that flow through the client are either `Decimal` or
  `float`; both are modelled as rationals tagged with their representation
  (`Num.dec` / `Num.flt`).  No claim depends on floating-point rounding of
  a product (the only exact-value claim, C6, is about the Decimal path),
  so the value component is exact.
* The transport is an explicit function from requests to responses; a
  response is its status code plus the decoded JSON body's optional
  `rates` object (an association list from currency code to number).
* Raising an exception is modelled with `Except FxError`; each operation
  also returns the list of requests it issued, so "no network call" is
  the statement that this list is empty.
-/

namespace ForexPython

/-- A Python number in this client: a `Decimal` or a `float`, carrying its
rational value. -/
inductive Num where
  | dec (val : ℚ)
  | flt (val : ℚ)
  deriving DecidableEq, Repr

/-- Numeric value of a `Num`. -/
def Num.val : Num → ℚ
  | .dec v => v
  | .flt v => v

/-- `isinstance(x, Decimal)`. -/
def Num.isDec : Num → Bool
  | .dec _ => true
  | .flt _ => false

/-- Python `rate * amount`: `Decimal * Decimal` and `float * float`
succeed; mixing `Decimal` with `float` raises `TypeError`, modelled as
`none`. -/
def numMul : Num → Num → Option Num
  | .dec a, .dec b => some (.dec (a * b))
  | .flt a, .flt b => some (.flt (a * b))
  | _, _ => none

/-- A calendar date as passed for `date_obj` (a `datetime.date`-like
object; only `strftime` on it is used). -/
structure Date where
  year : ℕ
  month : ℕ
  day : ℕ
  deriving DecidableEq, Repr

/-- Zero-pad the decimal representation of `n` to `width` characters. -/
def padNum (width n : ℕ) : String :=
  let s := toString n
  String.mk (List.replicate (width - s.length) '0') ++ s

/-- `date_obj.strftime('%Y-%m-%d')`. -/
def strftimeYMD (d : Date) : String :=
  padNum 4 d.year ++ "-" ++ padNum 2 d.month ++ "-" ++ padNum 2 d.day

/-- `Common._source_url`. -/
def sourceUrl : String := "https://theforexapi.com/api/"

/-- `Common._get_date_string`: `'latest'` when no date is supplied,
otherwise the date formatted `YYYY-MM-DD`. -/
def getDateString : Option Date → String
  | none => "latest"
  | some d => strftimeYMD d

/-- An HTTP GET request: the url and the query parameters
(`safe_requests.get(source_url, params=payload, timeout=60)`). -/
structure Request where
  url : String
  params : List (String × String)
  deriving DecidableEq, Repr

/-- An HTTP response: the status code, and the `rates` field of the JSON
body (`none` when the body has no `rates` field), as a mapping from
currency code to the numeric value the JSON parser read. -/
structure Response where
  status_code : ℕ
  rates : Option (List (String × ℚ))
  deriving DecidableEq, Repr

/-- The HTTP transport collaborator (`safe_requests.get`). -/
abbrev Transport := Request → Response

/-- The two exception classes: `RatesNotAvailableError` and
`DecimalFloatMismatchError`, each carrying its message. -/
inductive FxError where
  | ratesNotAvailable (msg : String)
  | decimalFloatMismatch (msg : String)
  deriving DecidableEq, Repr

/-- `Common._decode_rates`: when `self._force_decimal or use_decimal`, the
body is parsed with `use_decimal=True` so every number is a `Decimal`;
otherwise `response.json()` yields `float`s.  `decoded_data.get('rates', {})`
returns the `rates` object, or an empty mapping when the field is
missing. -/
def decodeRates (force_decimal : Bool) (response : Response) (use_decimal : Bool) :
    List (String × Num) :=
  let tag : ℚ → Num := if force_decimal || use_decimal then .dec else .flt
  (response.rates.getD []).map (fun p => (p.1, tag p.2))

/-- `Common._get_decoded_rate`: `.get(dest_cur, None)` on the decoded
rates mapping. -/
def getDecodedRate (force_decimal : Bool) (response : Response) (dest_cur : String)
    (use_decimal : Bool) : Option Num :=
  (decodeRates force_decimal response use_decimal).lookup dest_cur

/-- Python truthiness of the looked-up rate (`if not rate:`): falsy when
it is `None`, `Decimal(0)` or `0.0`. -/
def rateFalsy : Option Num → Bool
  | none => true
  | some n => n.val == 0

/-- `CurrencyRates.get_rates(base_cur, date_obj)`: build the request,
issue it, and on a 200 status return the decoded rates mapping; on any
other status raise `RatesNotAvailableError`.  The second component lists
the requests issued. -/
def get_rates (force_decimal : Bool) (transport : Transport) (base_cur : String)
    (date_obj : Option Date) :
    Except FxError (List (String × Num)) × List Request :=
  let date_str := getDateString date_obj
  let req : Request := ⟨sourceUrl ++ date_str, [("base", base_cur), ("rtype", "fpy")]⟩
  let response := transport req
  if response.status_code == 200 then
    (.ok (decodeRates force_decimal response false), [req])
  else
    (.error (.ratesNotAvailable "Currency Rates Source Not Ready"), [req])

/-- `CurrencyRates.get_rate(base_cur, dest_cur, date_obj)`: identical
currencies short-circuit to `Decimal(1)` or `1.` with no request;
otherwise the single rate is fetched, a falsy (absent or zero) rate
raises `RatesNotAvailableError`, and a non-200 status raises
`RatesNotAvailableError`. -/
def get_rate (force_decimal : Bool) (transport : Transport) (base_cur dest_cur : String)
    (date_obj : Option Date) : Except FxError Num × List Request :=
  if base_cur == dest_cur then
    (.ok (if force_decimal then .dec 1 else .flt 1), [])
  else
    let date_str := getDateString date_obj
    let req : Request :=
      ⟨sourceUrl ++ date_str, [("base", base_cur), ("symbols", dest_cur), ("rtype", "fpy")]⟩
    let response := transport req
    if response.status_code == 200 then
      match getDecodedRate force_decimal response dest_cur false with
      | none =>
          (.error (.ratesNotAvailable ("Currency Rate " ++ base_cur ++ " => " ++ dest_cur
            ++ " not available for Date " ++ date_str)), [req])
      | some rate =>
          if rate.val == 0 then
            (.error (.ratesNotAvailable ("Currency Rate " ++ base_cur ++ " => " ++ dest_cur
              ++ " not available for Date " ++ date_str)), [req])
          else
            (.ok rate, [req])
    else
      (.error (.ratesNotAvailable "Currency Rates Source Not Ready"), [req])

/-- `CurrencyRates.convert(base_cur, dest_cur, amount, date_obj)`:
`use_decimal` is true when `amount` is a `Decimal`, else it follows
`force_decimal`; identical currencies return `Decimal(amount)` or
`float(amount)` with no request; otherwise the rate is fetched with
`use_decimal`, a falsy rate raises `RatesNotAvailableError`,
`rate * amount` is returned, a `TypeError` in the multiplication raises
`DecimalFloatMismatchError`, and a non-200 status raises
`RatesNotAvailableError`. -/
def convert (force_decimal : Bool) (transport : Transport) (base_cur dest_cur : String)
    (amount : Num) (date_obj : Option Date) : Except FxError Num × List Request :=
  let use_decimal := amount.isDec || force_decimal
  if base_cur == dest_cur then
    (.ok (if use_decimal then .dec amount.val else .flt amount.val), [])
  else
    let date_str := getDateString date_obj
    let req : Request :=
      ⟨sourceUrl ++ date_str, [("base", base_cur), ("symbols", dest_cur), ("rtype", "fpy")]⟩
    let response := transport req
    if response.status_code == 200 then
      match getDecodedRate force_decimal response dest_cur use_decimal with
      | none =>
          (.error (.ratesNotAvailable ("Currency " ++ sourceUrl ++ date_str ++ " => "
            ++ dest_cur ++ " rate not available for Date " ++ date_str ++ ".")), [req])
      | some rate =>
          if rate.val == 0 then
            (.error (.ratesNotAvailable ("Currency " ++ sourceUrl ++ date_str ++ " => "
              ++ dest_cur ++ " rate not available for Date " ++ date_str ++ ".")), [req])
          else
            match numMul rate amount with
            | some converted_amount => (.ok converted_amount, [req])
            | none =>
                (.error (.decimalFloatMismatch
                  "convert requires amount parameter is of type Decimal when force_decimal=True"),
                  [req])
    else
      (.error (.ratesNotAvailable "Currency Rates Source Not Ready"), [req])

/-- One record of `raw_data/currencies.json`: currency code, display
symbol and human-readable name. -/
structure CurrencyRecord where
  cc : String
  symbol : String
  name : String
  deriving DecidableEq, Repr

/-- `CurrencyCodes._get_data`: first record whose `cc` equals the code,
else `None`. -/
def getData (currency_data : List CurrencyRecord) (currency_code : String) :
    Option CurrencyRecord :=
  currency_data.find? (fun item => item.cc == currency_code)

/-- `CurrencyCodes._get_data_from_symbol`: first record whose `symbol`
equals the argument, else `None`. -/
def getDataFromSymbol (currency_data : List CurrencyRecord) (sym : String) :
    Option CurrencyRecord :=
  currency_data.find? (fun item => item.symbol == sym)

/-- `CurrencyCodes.get_symbol`. -/
def get_symbol (currency_data : List CurrencyRecord) (currency_code : String) :
    Option String :=
  (getData currency_data currency_code).map (fun d => d.symbol)

/-- `CurrencyCodes.get_currency_name`. -/
def get_currency_name (currency_data : List CurrencyRecord) (currency_code : String) :
    Option String :=
  (getData currency_data currency_code).map (fun d => d.name)

/-- `CurrencyCodes.get_currency_code_from_symbol`. -/
def get_currency_code_from_symbol (currency_data : List CurrencyRecord) (sym : String) :
    Option String :=
  (getDataFromSymbol currency_data sym).map (fun d => d.cc)

/-- The request `get_rates` builds (lines 76-79): url root plus date
token, query parameters `base` and the fixed `rtype` selector. -/
def ratesRequest (base : String) (date : Option Date) : Request :=
  ⟨sourceUrl ++ getDateString date, [("base", base), ("rtype", "fpy")]⟩

/-- The request `get_rate` and `convert` build (lines 110-113 and
153-156): url root plus date token, query parameters `base`, `symbols`
and the fixed `rtype` selector. -/
def rateRequest (base dest : String) (date : Option Date) : Request :=
  ⟨sourceUrl ++ getDateString date, [("base", base), ("symbols", dest), ("rtype", "fpy")]⟩

/-- Test transport: the source is down, every request gets a 503. -/
def t503 : Transport := fun _ => ⟨503, none⟩

/-- Test transport: every request gets a 200 whose body has no `rates`
field. -/
def t200missing : Transport := fun _ => ⟨200, none⟩

/-- Test transport: every request gets a 200 with body
`{"rates": {"EUR": 0.85}}`. -/
def t200eur : Transport := fun _ => ⟨200, some [("EUR", (0.85 : ℚ))]⟩

/-- Test transport: every request gets a 200 with body `{"rates": {}}`. -/
def t200empty : Transport := fun _ => ⟨200, some []⟩

/-- `List.lookup` commutes with mapping a function over the values of an
association list. -/
theorem lookup_map_val (tag : ℚ → Num) (l : List (String × ℚ)) (k : String) :
    (l.map (fun p => (p.1, tag p.2))).lookup k = (l.lookup k).map tag := by
  induction l with
  | nil => rfl
  | cons a l ih =>
      simp only [List.map_cons, List.lookup]
      cases k == a.1 <;> simp [ih]

/-- `_get_decoded_rate` is the lookup of the destination in the body's
`rates` object, tagged with the active numeric representation. -/
theorem getDecodedRate_eq (fd u : Bool) (resp : Response) (dest : String) :
    getDecodedRate fd resp dest u =
      ((resp.rates.getD []).lookup dest).map
        (fun q => if fd || u then Num.dec q else Num.flt q) := by
  unfold getDecodedRate decodeRates
  cases h : fd || u <;> simp [h, lookup_map_val]

/-- `List.find?` on `pre ++ r :: post` returns `r` when nothing in `pre`
satisfies the predicate and `r` does. -/
theorem find_first_match {α : Type} (p : α → Bool) (pre post : List α) (r : α)
    (hpre : ∀ x ∈ pre, p x = false) (hr : p r = true) :
    (pre ++ r :: post).find? p = some r := by
  induction pre with
  | nil => simp [List.find?_cons_of_pos, hr]
  | cons a l ih =>
      have ha : p a = false := hpre a (by simp)
      rw [List.cons_append, List.find?_cons_of_neg _ (by simp [ha])]
      exact ih (fun x hx => hpre x (by simp [hx]))

/-- C1: for every base and destination currency, amount and date, when the
transport answers every request with a non-200 status, each of `get_rates`,
`get_rate` and `convert` raises `RatesNotAvailableError` and returns no
partial result. -/
theorem non200_every_op_raises_unavailable (fd : Bool) (t : Transport) (base dest : String)
    (a : Num) (date : Option Date) (hbd : base ≠ dest)
    (h : ∀ req, (t req).status_code ≠ 200) :
    (∃ m, (get_rates fd t base date).1 = .error (.ratesNotAvailable m)) ∧
    (∃ m, (get_rate fd t base dest date).1 = .error (.ratesNotAvailable m)) ∧
    (∃ m, (convert fd t base dest a date).1 = .error (.ratesNotAvailable m)) := by
  refine ⟨⟨"Currency Rates Source Not Ready", ?_⟩,
    ⟨"Currency Rates Source Not Ready", ?_⟩, ⟨"Currency Rates Source Not Ready", ?_⟩⟩
  · unfold get_rates; dsimp only; simp [h]
  · unfold get_rate; dsimp only; simp [hbd, h]
  · unfold convert; dsimp only; simp [hbd, h]

/-- Witness for C1: with a transport that always answers 503, the three
operations on `USD`/`EUR` all raise `RatesNotAvailableError`. -/
theorem non200_every_op_raises_unavailable_witness :
    (∃ m, (get_rates false t503 "USD" none).1 = .error (.ratesNotAvailable m)) ∧
    (∃ m, (get_rate false t503 "USD" "EUR" none).1 = .error (.ratesNotAvailable m)) ∧
    (∃ m, (convert false t503 "USD" "EUR" (Num.flt 100) none).1 =
      .error (.ratesNotAvailable m)) :=
  non200_every_op_raises_unavailable false t503 "USD" "EUR" (Num.flt 100) none
    (by decide) (fun req => by norm_num [t503])

/-- C2: for distinct base and destination, on a 200 response `get_rate`
returns the decoded destination rate exactly when the payload's `rates`
mapping holds it and it is not zero; an absent or exactly-zero rate raises
`RatesNotAvailableError`. -/
theorem get_rate_status200_present_nonzero (fd : Bool) (t : Transport) (base dest : String)
    (date : Option Date) (hbd : base ≠ dest)
    (h200 : (t (rateRequest base dest date)).status_code = 200) :
    (∀ q : ℚ, ((t (rateRequest base dest date)).rates.getD []).lookup dest = some q →
      q ≠ 0 →
      (get_rate fd t base dest date).1 = .ok (if fd then Num.dec q else Num.flt q)) ∧
    (((t (rateRequest base dest date)).rates.getD []).lookup dest = none ∨
        ((t (rateRequest base dest date)).rates.getD []).lookup dest = some 0 →
      ∃ m, (get_rate fd t base dest date).1 = .error (.ratesNotAvailable m)) := by
  unfold rateRequest at h200 ⊢
  constructor
  · intro q hq hq0
    unfold get_rate
    dsimp only
    rw [if_neg (by simpa using hbd), if_pos (by simpa using h200), getDecodedRate_eq, hq]
    cases fd <;> simp [Num.val, hq0]
  · intro hcase
    unfold get_rate
    dsimp only
    rw [if_neg (by simpa using hbd), if_pos (by simpa using h200), getDecodedRate_eq]
    rcases hcase with hn | h0
    · rw [hn]
      exact ⟨_, rfl⟩
    · rw [h0]
      cases fd <;> simp [Num.val]

/-- Witness for C2: a 200 response with body `{"rates": {"EUR": 0.85}}`
makes `get_rate("USD","EUR",None)` return the float `0.85`. -/
theorem get_rate_status200_present_nonzero_witness :
    (get_rate false t200eur "USD" "EUR" none).1 = .ok (Num.flt (0.85 : ℚ)) := by
  have h := get_rate_status200_present_nonzero false t200eur "USD" "EUR" none
    (by decide) rfl
  simpa using h.1 (0.85 : ℚ) rfl (by norm_num)

/-- C3: `get_rate(c, c, date)` returns the multiplicative identity,
`Decimal(1)` under forced decimal mode and the float `1.` otherwise, and
issues no request. -/
theorem get_rate_same_currency_identity (fd : Bool) (t : Transport) (c : String)
    (date : Option Date) :
    get_rate fd t c c date = (.ok (if fd then Num.dec 1 else Num.flt 1), []) := by
  simp [get_rate]

/-- C4: `convert(c, c, a, date)` issues no request and returns a value
numerically equal to `a`, a `Decimal` when `a` is a `Decimal` or the
forced-decimal flag is set and a float otherwise. -/
theorem convert_same_currency_identity (fd : Bool) (t : Transport) (c : String) (a : Num)
    (date : Option Date) :
    ∃ r : Num, convert fd t c c a date = (.ok r, []) ∧ r.val = a.val ∧
      r.isDec = (a.isDec || fd) := by
  refine ⟨if a.isDec || fd then .dec a.val else .flt a.val, ?_, ?_, ?_⟩
  · simp [convert]
  · cases h : a.isDec || fd <;> simp [h, Num.val]
  · cases h : a.isDec || fd <;> simp [h, Num.isDec]

/-- C5: `convert` selects the active representation from the amount's
runtime type (`Decimal` if the amount is one, else the forced-decimal
flag); when the decoded rate is a `Decimal` and the amount a float under
forced decimal mode the multiplication raises `TypeError` and `convert`
raises `DecimalFloatMismatchError`; otherwise it returns the product in
the active representation. -/
theorem convert_representation_selection_and_mismatch (fd : Bool) (t : Transport)
    (base dest : String) (a : Num) (date : Option Date) (q : ℚ) (hbd : base ≠ dest)
    (h200 : (t (rateRequest base dest date)).status_code = 200)
    (hq : ((t (rateRequest base dest date)).rates.getD []).lookup dest = some q)
    (hq0 : q ≠ 0) :
    (a.isDec = false → fd = true →
      (convert fd t base dest a date).1 = .error (.decimalFloatMismatch
        "convert requires amount parameter is of type Decimal when force_decimal=True")) ∧
    ((a.isDec || !fd) = true →
      ∃ r : Num, (convert fd t base dest a date).1 = .ok r ∧
        r.isDec = (a.isDec || fd) ∧ r.val = q * a.val) := by
  unfold rateRequest at h200 hq
  constructor
  · intro hflt hfd
    subst hfd
    unfold convert
    dsimp only
    rw [if_neg (by simpa using hbd), if_pos (by simpa using h200), getDecodedRate_eq, hq]
    cases a with
    | dec v => simp [Num.isDec] at hflt
    | flt v => simp [Num.isDec, Num.val, hq0, numMul]
  · intro hcompat
    unfold convert
    dsimp only
    rw [if_neg (by simpa using hbd), if_pos (by simpa using h200), getDecodedRate_eq, hq]
    cases a with
    | dec v =>
        refine ⟨.dec (q * v), ?_, by simp [Num.isDec], rfl⟩
        simp [Num.isDec, Num.val, hq0, numMul]
    | flt v =>
        simp [Num.isDec] at hcompat
        subst hcompat
        refine ⟨.flt (q * v), ?_, by simp [Num.isDec], rfl⟩
        simp [Num.isDec, Num.val, hq0, numMul]

/-- Witness for C5: under forced decimal mode, converting the float
amount `10` with an available rate raises `DecimalFloatMismatchError`. -/
theorem convert_representation_selection_and_mismatch_witness :
    (convert true t200eur "USD" "EUR" (Num.flt 10) none).1 = .error (.decimalFloatMismatch
      "convert requires amount parameter is of type Decimal when force_decimal=True") := by
  have h := convert_representation_selection_and_mismatch true t200eur "USD" "EUR"
    (Num.flt 10) none (0.85 : ℚ) (by decide) rfl rfl (by norm_num)
  exact h.1 rfl rfl

/-- C6: in decimal mode the multiplication is exact: with decoded rate
`Decimal("0.85")` and amount `Decimal("10")`,
`convert("USD","EUR",Decimal("10"),None)` returns exactly `8.5`. -/
theorem convert_decimal_multiplication_exact :
    (convert false t200eur "USD" "EUR" (Num.dec 10) none).1 = .ok (Num.dec (8.5 : ℚ)) := by
  norm_num [convert, getDecodedRate, decodeRates, numMul, t200eur, Num.val, Num.isDec]
  rw [if_neg (by decide)]

/-- C7: decoding a 200 response whose body has no `rates` field yields an
empty mapping rather than an error, and `get_rates` returns the empty
mapping for such a body. -/
theorem missing_rates_field_empty_mapping (fd : Bool) (t : Transport) (base : String)
    (date : Option Date) (h : t (ratesRequest base date) = ⟨200, none⟩) :
    (∀ (resp : Response) (u : Bool), resp.rates = none → decodeRates fd resp u = []) ∧
    (get_rates fd t base date).1 = .ok [] := by
  unfold ratesRequest at h
  constructor
  · intro resp u hr
    simp [decodeRates, hr]
  · unfold get_rates; dsimp only
    rw [h]
    simp [decodeRates]

/-- Witness for C7: a transport answering 200 with a body lacking `rates`
makes `get_rates` return the empty mapping. -/
theorem missing_rates_field_empty_mapping_witness :
    (∀ (resp : Response) (u : Bool), resp.rates = none → decodeRates false resp u = []) ∧
    (get_rates false t200missing "USD" none).1 = .ok [] :=
  missing_rates_field_empty_mapping false t200missing "USD" none rfl

/-- C8: every operation issues exactly the request built from the source
endpoint root concatenated with the date token (`YYYY-MM-DD` for a
supplied date, `latest` otherwise), with query parameters `base`, the
destination under `symbols` for `get_rate` and `convert` only, and the
fixed `rtype` selector. -/
theorem request_construction (fd : Bool) (t : Transport) (base dest : String)
    (a : Num) (date : Option Date) (hbd : base ≠ dest) :
    (get_rates fd t base date).2 =
      [⟨sourceUrl ++ getDateString date, [("base", base), ("rtype", "fpy")]⟩] ∧
    (get_rate fd t base dest date).2 =
      [⟨sourceUrl ++ getDateString date, [("base", base), ("symbols", dest), ("rtype", "fpy")]⟩] ∧
    (convert fd t base dest a date).2 =
      [⟨sourceUrl ++ getDateString date, [("base", base), ("symbols", dest), ("rtype", "fpy")]⟩] ∧
    getDateString none = "latest" ∧
    (∀ d : Date, getDateString (some d) =
      padNum 4 d.year ++ "-" ++ padNum 2 d.month ++ "-" ++ padNum 2 d.day) := by
  refine ⟨?_, ?_, ?_, rfl, fun d => rfl⟩
  · unfold get_rates; dsimp only; split <;> rfl
  · unfold get_rate; dsimp only
    split
    · rename_i heq
      exact absurd (by simpa using heq) hbd
    · split
      · split
        · rfl
        · split <;> rfl
      · rfl
  · unfold convert; dsimp only
    split
    · rename_i heq
      exact absurd (by simpa using heq) hbd
    · split
      · split
        · rfl
        · split
          · rfl
          · split <;> rfl
      · rfl

/-- Witness for C8: the requests issued for `USD`/`EUR` on 2021-01-01. -/
theorem request_construction_witness :
    (get_rates false t503 "USD" (some ⟨2021, 1, 1⟩)).2 =
      [⟨sourceUrl ++ getDateString (some ⟨2021, 1, 1⟩), [("base", "USD"), ("rtype", "fpy")]⟩] ∧
    (get_rate false t503 "USD" "EUR" (some ⟨2021, 1, 1⟩)).2 =
      [⟨sourceUrl ++ getDateString (some ⟨2021, 1, 1⟩),
        [("base", "USD"), ("symbols", "EUR"), ("rtype", "fpy")]⟩] ∧
    (convert false t503 "USD" "EUR" (Num.flt 1) (some ⟨2021, 1, 1⟩)).2 =
      [⟨sourceUrl ++ getDateString (some ⟨2021, 1, 1⟩),
        [("base", "USD"), ("symbols", "EUR"), ("rtype", "fpy")]⟩] ∧
    getDateString none = "latest" ∧
    (∀ d : Date, getDateString (some d) =
      padNum 4 d.year ++ "-" ++ padNum 2 d.month ++ "-" ++ padNum 2 d.day) :=
  request_construction false t503 "USD" "EUR" (Num.flt 1) (some ⟨2021, 1, 1⟩) (by decide)

/-- C9: `get_symbol`, `get_currency_name` and
`get_currency_code_from_symbol` scan the table linearly and return the
requested field of the first matching record, and the `None` sentinel
rather than an error when no record matches. -/
theorem directory_linear_scan_first_match (data : List CurrencyRecord) (code sym : String) :
    ((∀ r ∈ data, r.cc ≠ code) →
      get_symbol data code = none ∧ get_currency_name data code = none) ∧
    (∀ (pre post : List CurrencyRecord) (r : CurrencyRecord),
      data = pre ++ r :: post → r.cc = code → (∀ x ∈ pre, x.cc ≠ code) →
      get_symbol data code = some r.symbol ∧ get_currency_name data code = some r.name) ∧
    ((∀ r ∈ data, r.symbol ≠ sym) → get_currency_code_from_symbol data sym = none) ∧
    (∀ (pre post : List CurrencyRecord) (r : CurrencyRecord),
      data = pre ++ r :: post → r.symbol = sym → (∀ x ∈ pre, x.symbol ≠ sym) →
      get_currency_code_from_symbol data sym = some r.cc) := by
  refine ⟨?_, ?_, ?_, ?_⟩
  · intro habs
    have hnone : getData data code = none := by
      unfold getData
      rw [List.find?_eq_none]
      intro x hx
      simp [habs x hx]
    simp [get_symbol, get_currency_name, hnone]
  · intro pre post r hdata hr hpre
    have hfound : getData data code = some r := by
      unfold getData
      rw [hdata]
      exact find_first_match _ pre post r (fun x hx => by simp [hpre x hx]) (by simp [hr])
    simp [get_symbol, get_currency_name, hfound]
  · intro habs
    have hnone : getDataFromSymbol data sym = none := by
      unfold getDataFromSymbol
      rw [List.find?_eq_none]
      intro x hx
      simp [habs x hx]
    simp [get_currency_code_from_symbol, hnone]
  · intro pre post r hdata hr hpre
    have hfound : getDataFromSymbol data sym = some r := by
      unfold getDataFromSymbol
      rw [hdata]
      exact find_first_match _ pre post r (fun x hx => by simp [hpre x hx]) (by simp [hr])
    simp [get_currency_code_from_symbol, hfound]

/-- C10: `get_rates` and `get_rate` never raise
`DecimalFloatMismatchError`, whatever the inputs and the transport's
response; that error is raised only by `convert`. -/
theorem rate_fetchers_never_raise_mismatch (fd : Bool) (t : Transport) (base dest : String)
    (date : Option Date) (m : String) :
    (get_rates fd t base date).1 ≠ .error (.decimalFloatMismatch m) ∧
    (get_rate fd t base dest date).1 ≠ .error (.decimalFloatMismatch m) := by
  constructor
  · unfold get_rates
    dsimp only
    split <;> simp
  · unfold get_rate
    dsimp only
    split
    · simp
    · split
      · split
        · simp
        · split <;> simp
      · simp

end ForexPython
